import Mathlib

/-
Formal model of the video-editing-agency backend (src/main.py).

The repository source under src/ is a single FastAPI module.  Pure handler
logic (register, login, get_current_user, get_pricing, get_testimonials,
me, test_database) is embedded directly from src/main.py.  Three
collaborators are used by src/main.py but their implementations are not in
src/: the document store adapter (database.py), the password hasher
(passlib CryptContext with bcrypt) and the token library (python-jose).
Those are modelled from the specification, as marked on each definition.
-/

namespace AgencyAPI

/-! ### List helper lemmas used by the hash-parsing proofs -/

theorem takeWhile_replicate_append_cons (p : Char → Bool) (a b : Char) (n : Nat)
    (l : List Char) (ha : p a = true) (hb : p b = false) :
    List.takeWhile p (List.replicate n a ++ b :: l) = List.replicate n a := by
  induction n with
  | zero => simp [List.takeWhile_cons, hb]
  | succ n ih => simp [List.replicate_succ, List.takeWhile_cons, ha, ih]

theorem takeWhile_append_drop (p : Char → Bool) (l : List Char) :
    List.takeWhile p l ++ l.drop (List.takeWhile p l).length = l := by
  induction l with
  | nil => rfl
  | cons a t ih =>
    by_cases h : p a
    · simpa [List.takeWhile_cons, h] using ih
    · simp [List.takeWhile_cons, h]

theorem mem_takeWhile_pred (p : Char → Bool) (l : List Char) (x : Char)
    (hx : x ∈ List.takeWhile p l) : p x = true := by
  induction l with
  | nil => simp [List.takeWhile] at hx
  | cons a t ih =>
    by_cases h : p a
    · rw [List.takeWhile_cons, if_pos h] at hx
      rcases List.mem_cons.mp hx with rfl | hx
      · exact h
      · exact ih hx
    · rw [List.takeWhile_cons, if_neg h] at hx
      simp at hx

/-! ### Password hasher

Modelled from the spec: the hasher implementation (passlib CryptContext
with the bcrypt scheme, `pwd_context` at src/main.py line 19) is a library
collaborator whose code is not under src/.  Spec §4.1: `hash` produces a
salted one-way hash, a random salt is drawn per call and embedded in the
output string; `verify` re-reads the salt embedded in the hash, recomputes
the digest for the candidate password and compares; on a malformed hash it
returns false instead of raising.  The per-call randomness is made explicit
as a `salt : Nat` argument; the salt is embedded in unary (a run of `*`
characters) followed by a `$` separator and the digest, which keeps the
parse step honest while staying provable.  The digest function is the
(spec-assumed collision-free) keyed digest of salt and password. -/

def bcryptDigest (salt : Nat) (password : String) : String :=
  String.mk (List.replicate salt '*' ++ ':' :: password.data)

/-- Modelled from the spec: `get_password_hash` (src/main.py lines 66-67)
delegates to `pwd_context.hash`, which draws a fresh random salt per call;
the draw is the explicit `salt` argument here. -/
def get_password_hash (salt : Nat) (password : String) : String :=
  String.mk (List.replicate salt '*' ++ '$' :: (bcryptDigest salt password).data)

/-- Modelled from the spec: `verify_password` (src/main.py lines 62-63)
delegates to `pwd_context.verify`, which parses the salt embedded in the
stored hash, recomputes and compares, and treats a malformed hash as a
verification failure (returns false, never raises). -/
def verify_password (plain_password : String) (hashed_password : String) : Bool :=
  match hashed_password.data.drop
      (hashed_password.data.takeWhile (fun c => c == '*')).length with
  | '$' :: rest =>
    String.mk rest ==
      bcryptDigest (hashed_password.data.takeWhile (fun c => c == '*')).length plain_password
  | _ => false

theorem string_ext_data {a b : String} (h : a.data = b.data) : a = b := by
  cases a; cases b; exact congrArg String.mk h

theorem data_get_password_hash (salt : Nat) (password : String) :
    (get_password_hash salt password).data =
      List.replicate salt '*' ++ '$' :: (bcryptDigest salt password).data := rfl

theorem takeWhile_data_hash (salt : Nat) (password : String) :
    ((get_password_hash salt password).data.takeWhile (fun c => c == '*')) =
      List.replicate salt '*' := by
  rw [data_get_password_hash]
  exact takeWhile_replicate_append_cons _ _ _ _ _ (by decide) (by decide)

theorem drop_data_hash (salt : Nat) (password : String) :
    (get_password_hash salt password).data.drop salt =
      '$' :: (bcryptDigest salt password).data := by
  rw [data_get_password_hash]
  have := List.drop_left (List.replicate salt '*') ('$' :: (bcryptDigest salt password).data)
  simp only [List.length_replicate] at this
  exact this

theorem verify_password_hash_eval (salt : Nat) (p q : String) :
    verify_password p (get_password_hash salt q) =
      (bcryptDigest salt q == bcryptDigest salt p) := by
  unfold verify_password
  rw [takeWhile_data_hash, List.length_replicate, drop_data_hash]
  rfl

theorem verify_password_hash_self (salt : Nat) (password : String) :
    verify_password password (get_password_hash salt password) = true := by
  rw [verify_password_hash_eval]
  exact beq_self_eq_true _

theorem bcryptDigest_inj_password (salt : Nat) (p q : String)
    (h : bcryptDigest salt p = bcryptDigest salt q) : p = q := by
  unfold bcryptDigest at h
  have hd := congrArg String.data h
  simp only [String.data] at hd
  have hpq : p.data = q.data := by
    simpa using List.append_cancel_left hd
  exact string_ext_data hpq

theorem verify_password_hash_other (salt : Nat) (p q : String) (hne : p ≠ q) :
    verify_password p (get_password_hash salt q) = false := by
  rw [verify_password_hash_eval]
  simp only [beq_eq_false_iff_ne, ne_eq]
  intro hEq
  exact hne (bcryptDigest_inj_password salt q p hEq).symm

theorem length_data_get_password_hash (salt : Nat) (password : String) :
    (get_password_hash salt password).data.length = 2 * salt + 2 + password.data.length := by
  simp only [data_get_password_hash, List.length_append, List.length_replicate,
    List.length_cons, bcryptDigest]
  omega

theorem get_password_hash_salt_ne (s1 s2 : Nat) (password : String) (h : s1 ≠ s2) :
    get_password_hash s1 password ≠ get_password_hash s2 password := by
  intro hEq
  have h2 := congrArg (fun s : String => s.data.length) hEq
  simp only [length_data_get_password_hash] at h2
  omega

theorem verify_password_true_inv (p h : String) (hv : verify_password p h = true) :
    ∃ salt, h = get_password_hash salt p := by
  unfold verify_password at hv
  split at hv
  · rename_i rest heq
    simp only [beq_iff_eq] at hv
    have hrest : rest = (bcryptDigest (h.data.takeWhile (fun c => c == '*')).length p).data :=
      congrArg String.data hv
    have hsplit : h.data.takeWhile (fun c => c == '*') ++ '$' :: rest = h.data := by
      rw [← heq]
      exact takeWhile_append_drop (fun c => c == '*') h.data
    have hspRep : h.data.takeWhile (fun c => c == '*') =
        List.replicate (h.data.takeWhile (fun c => c == '*')).length '*' := by
      refine List.eq_replicate_of_mem ?_
      intro b hb
      have := mem_takeWhile_pred (fun c => c == '*') h.data b hb
      simpa using this
    refine ⟨(h.data.takeWhile (fun c => c == '*')).length, ?_⟩
    refine string_ext_data ?_
    rw [data_get_password_hash, ← hrest, ← hspRep, hsplit]
  · exact absurd hv (by simp)

/-! ### Token issuer and verifier

Modelled from the spec: the JWT library (python-jose, used at src/main.py
lines 74 and 80) is a library collaborator whose code is not under src/.
Spec §4.2: tokens carry a claims set with a subject and an expiry, are
signed with a process-wide symmetric secret key, and verification checks
the signature and that the expiry has not passed.  A token is modelled as
its claims plus a signature; the signature function is the (spec-assumed
unforgeable) keyed MAC over the claims.  Time is modelled in seconds. -/

def SECRET_KEY : String := "supersecretkeychange"

def ACCESS_TOKEN_EXPIRE_MINUTES : Int := 60 * 24

structure Claims where
  sub : Option String
  exp : Int
deriving DecidableEq, Repr

def signToken (key : String) (c : Claims) : String :=
  key ++ "|" ++ c.sub.getD "" ++ "|" ++ toString c.exp

structure Jwt where
  claims : Claims
  sig : String
deriving DecidableEq, Repr

/-- Embeds `create_access_token` (src/main.py lines 70-74): copy the data,
set the expiry to now plus the supplied delta or the 24-hour default, sign
with the secret key. -/
def create_access_token (now : Int) (sub : Option String)
    (expires_delta : Option Int) : Jwt :=
  let expire : Int := now + expires_delta.getD (ACCESS_TOKEN_EXPIRE_MINUTES * 60)
  let c : Claims := { sub := sub, exp := expire }
  { claims := c, sig := signToken SECRET_KEY c }

/-- Modelled from the spec: `jwt.decode` checks the signature with the key
and fails once the expiry has passed; on success it returns the claims. -/
def jwt_decode (key : String) (t : Jwt) (now : Int) : Except String Claims :=
  if t.sig == signToken key t.claims then
    if now < t.claims.exp then .ok t.claims else .error "ExpiredSignatureError"
  else .error "JWTError"

theorem jwt_decode_create (now tnow : Int) (sub : Option String) (delta : Option Int)
    (h : tnow < now + delta.getD (ACCESS_TOKEN_EXPIRE_MINUTES * 60)) :
    jwt_decode SECRET_KEY (create_access_token now sub delta) tnow =
      .ok { sub := sub, exp := now + delta.getD (ACCESS_TOKEN_EXPIRE_MINUTES * 60) } := by
  simp [jwt_decode, create_access_token, h]

/-! ### Document store adapter and data model

Modelled from the spec: `create_document` and `get_documents` come from
database.py, which is not under src/.  Spec §2: the store exposes
`create_document(collection, doc)` and `get_documents(collection, filter,
limit)`; §3: a User document is `{email, password_hash, name}`.  The user
collection is a list of user documents; `get_documents` with an email
filter returns up to `limit` exact matches; `create_document` appends.
`password_hash` is optional because the store is schema-flexible and the
login path reads it with a default (src/main.py line 163). -/

structure UserDoc where
  email : String
  password_hash : Option String
  name : String
deriving DecidableEq, Repr

def get_documents (db : List UserDoc) (email : String) (lim : Nat) : List UserDoc :=
  (db.filter (fun u => u.email == email)).take lim

def create_document (db : List UserDoc) (doc : UserDoc) : List UserDoc :=
  db ++ [doc]

/-- HTTP error raised by a handler, as in `HTTPException(status_code, detail)`. -/
structure HTTPException where
  status_code : Nat
  detail : String
deriving DecidableEq, Repr

/-! ### Auth handlers, embedded from src/main.py -/

/-- Embeds `register` (src/main.py lines 142-152).  The handler is
state-passing: it returns the user collection after the call together with
the HTTP outcome, so that a failing call provably writes nothing.  The
per-call random salt of the hasher and the current time of the token
issuer are explicit arguments. -/
def register (db : List UserDoc) (salt : Nat) (now : Int)
    (email password : String) : List UserDoc × Except HTTPException Jwt :=
  match get_documents db email 1 with
  | _ :: _ => (db, .error { status_code := 400, detail := "Email already registered" })
  | [] =>
    let password_hash := get_password_hash salt password
    let db2 := create_document db
      { email := email, password_hash := some password_hash,
        name := (email.splitOn "@").headD "" }
    (db2, .ok (create_access_token now (some email) none))

/-- Embeds `login` (src/main.py lines 155-166): look the user up, verify
the password against the stored hash (empty-string default when the field
is missing), and issue a token on success. -/
def login (db : List UserDoc) (now : Int) (email password : String) :
    Except HTTPException Jwt :=
  match get_documents db email 1 with
  | [] => .error { status_code := 400, detail := "Invalid credentials" }
  | user :: _ =>
    if verify_password password (user.password_hash.getD "") then
      .ok (create_access_token now (some email) none)
    else .error { status_code := 400, detail := "Invalid credentials" }

/-- Embeds `get_current_user` (src/main.py lines 77-90): decode the token,
require a subject claim, look the user up; every failure is the same
401 `credentials_exception`. -/
def get_current_user (db : List UserDoc) (now : Int) (token : Jwt) :
    Except HTTPException UserDoc :=
  match jwt_decode SECRET_KEY token now with
  | .error _ => .error { status_code := 401, detail := "Could not validate credentials" }
  | .ok payload =>
    match payload.sub with
    | none => .error { status_code := 401, detail := "Could not validate credentials" }
    | some email =>
      match get_documents db email 1 with
      | [] => .error { status_code := 401, detail := "Could not validate credentials" }
      | u :: _ => .ok u

/-! ### Content handlers, embedded from src/main.py

The Python handlers take no arguments and read no mutable state, so they
embed as constants; determinism across calls is the embedding itself.
`price` is an integral literal in the source (declared float); it is
embedded as the same numeral over Nat since no claim concerns float
arithmetic. -/

structure PricingTier where
  name : String
  price : Nat
  description : String
  features : List String
deriving DecidableEq, Repr

structure Testimonial where
  name : String
  role : String
  quote : String
  avatar : Option String
deriving DecidableEq, Repr

/-- Embeds `get_pricing` (src/main.py lines 99-120). -/
def get_pricing : List PricingTier :=
  [ { name := "Starter", price := 299,
      description := "Perfect for quick social edits",
      features := ["Up to 60s video", "1 revision", "48h delivery"] },
    { name := "Pro", price := 699,
      description := "For creators and brands",
      features := ["Up to 5 min", "3 revisions", "Color + sound mix"] },
    { name := "Studio", price := 1499,
      description := "Agency-level polish",
      features := ["10+ min", "Unlimited revisions", "Motion graphics"] } ]

/-- Embeds `get_testimonials` (src/main.py lines 123-129). -/
def get_testimonials : List Testimonial :=
  [ { name := "Ava Stone", role := "Creator",
      quote := "They made my content pop — fast and flawless!", avatar := none },
    { name := "Liam Chen", role := "Brand Manager",
      quote := "Consistent quality and on-time delivery every time.", avatar := none },
    { name := "Maya Patel", role := "Founder",
      quote := "Our ads converted 2x better after their edits.", avatar := none } ]

/-- Embeds `me` (src/main.py lines 169-171): the response dictionary is an
association list from field name to value, making the set of returned
fields a provable fact. -/
def me (current_user : UserDoc) : List (String × String) :=
  [("email", current_user.email), ("name", current_user.name)]

/-! ### Health-check handler, embedded from src/main.py -/

/-- Modelled from the spec: the store handle `db` comes from database.py,
which is not under src/.  The handle is reduced to what `test_database`
observes of it: the `name` attribute access (an `Except` because a raising
attribute would propagate out of `hasattr` and be caught by the outer
handler; `Option` because the attribute may be missing) and the
`list_collection_names` call, which may raise (`Except`). -/
structure DbHandle where
  nameAttr : Except String (Option String)
  list_collection_names : Except String (List String)
deriving Repr

structure TestResponse where
  backend : String
  database : String
  database_url : Option String
  database_name : Option String
  connection_status : String
  collections : List String
deriving DecidableEq, Repr

/-- Models Python string slicing `s[:n]` character-wise. -/
def pySlice (s : String) (n : Nat) : String :=
  String.mk (s.data.take n)

/-- Embeds `test_database` (src/main.py lines 174-203).  The response is
built up exactly in source order: defaults, then the `db`-dependent
updates with both exception handlers flattened into the `Except` results
of the handle, then the unconditional env-based overwrites of
`database_url` and `database_name`. -/
def test_database (dbh : Option DbHandle) (urlSet nameSet : Bool) : TestResponse :=
  let r0 : TestResponse :=
    { backend := "✅ Running", database := "❌ Not Available",
      database_url := none, database_name := none,
      connection_status := "Not Connected", collections := [] }
  let r1 :=
    match dbh with
    | none => { r0 with database := "⚠️  Available but not initialized" }
    | some d =>
      let ra := { r0 with database := "✅ Available", database_url := some "✅ Configured" }
      match d.nameAttr with
      | .error e => { ra with database := "❌ Error: " ++ pySlice e 50 }
      | .ok nameOpt =>
        let rb :=
          { ra with
            database_name := some (nameOpt.getD "✅ Connected"),
            connection_status := "Connected" }
        match d.list_collection_names with
        | .ok cols =>
          { rb with collections := cols.take 10, database := "✅ Connected & Working" }
        | .error e => { rb with database := "⚠️  Connected but Error: " ++ pySlice e 50 }
  { r1 with
    database_url := some (if urlSet then "✅ Set" else "❌ Not Set"),
    database_name := some (if nameSet then "✅ Set" else "❌ Not Set") }

/-! ### Store lookup lemmas -/

theorem get_documents_eq_nil_iff (db : List UserDoc) (email : String) :
    get_documents db email 1 = [] ↔ ∀ u ∈ db, u.email ≠ email := by
  unfold get_documents
  constructor
  · intro h u hu he
    have hf : db.filter (fun v => v.email == email) = [] := by
      rcases List.take_eq_nil_iff.mp h with h1 | h2
      · exact absurd h1 (by simp)
      · exact h2
    have := List.filter_eq_nil_iff.mp hf u hu
    simp [he] at this
  · intro hall
    have hf : db.filter (fun v => v.email == email) = [] := by
      refine List.filter_eq_nil_iff.mpr ?_
      intro u hu
      simpa using hall u hu
    rw [hf, List.take_nil]

theorem get_documents_cons_head (db : List UserDoc) (email : String) (n : Nat)
    (u : UserDoc) (rest : List UserDoc) (h : get_documents db email n = u :: rest) :
    u ∈ db ∧ u.email = email := by
  unfold get_documents at h
  have hu : u ∈ (db.filter (fun v => v.email == email)).take n := by
    rw [h]; exact List.mem_cons_self u rest
  have hu2 := List.mem_of_mem_take hu
  have := List.mem_filter.mp hu2
  exact ⟨this.1, by simpa using this.2⟩

theorem register_of_found (db : List UserDoc) (salt : Nat) (now : Int)
    (email password : String) (u : UserDoc) (rest : List UserDoc)
    (hd : get_documents db email 1 = u :: rest) :
    register db salt now email password =
      (db, .error { status_code := 400, detail := "Email already registered" }) := by
  simp [register, hd]

theorem register_fst_has_email (db : List UserDoc) (salt : Nat) (now : Int)
    (email password : String) :
    ∃ u ∈ (register db salt now email password).1, u.email = email := by
  cases hd : get_documents db email 1 with
  | nil =>
    refine ⟨⟨email, some (get_password_hash salt password), (email.splitOn "@").headD ""⟩,
      ?_, rfl⟩
    simp [register, hd, create_document]
  | cons u rest =>
    have h2 := get_documents_cons_head db email 1 u rest hd
    exact ⟨u, by simp [register, hd, h2.1], h2.2⟩

/-! ### Claim theorems -/

/-- Claim C1: Register(email, password) fails with EmailTaken (HTTP 400,
detail "Email already registered") and writes nothing when a user with
that email already exists; otherwise it hashes the password, appends
exactly one document with that email, the password hash and the local
part of the email as name, and returns a token whose subject is the
email; and registering the same email twice in sequence always fails
with EmailTaken on the second attempt. -/
theorem register_spec (db : List UserDoc) (salt : Nat) (now : Int)
    (email password : String) :
    ((∃ u ∈ db, u.email = email) →
      register db salt now email password =
        (db, .error { status_code := 400, detail := "Email already registered" })) ∧
    ((∀ u ∈ db, u.email ≠ email) →
      register db salt now email password =
        (db ++ [⟨email, some (get_password_hash salt password), (email.splitOn "@").headD ""⟩],
         .ok (create_access_token now (some email) none)) ∧
      (create_access_token now (some email) none).claims.sub = some email) ∧
    (∀ (salt2 : Nat) (now2 : Int) (password2 : String),
      (register (register db salt now email password).1 salt2 now2 email password2).2 =
        .error { status_code := 400, detail := "Email already registered" }) := by
  refine ⟨?_, ?_, ?_⟩
  · rintro ⟨u, hu, he⟩
    cases hd : get_documents db email 1 with
    | nil => exact absurd he ((get_documents_eq_nil_iff db email).mp hd u hu)
    | cons v rest => exact register_of_found db salt now email password v rest hd
  · intro hall
    have hnil : get_documents db email 1 = [] := (get_documents_eq_nil_iff db email).mpr hall
    exact ⟨by simp [register, hnil, create_document], rfl⟩
  · intro salt2 now2 password2
    obtain ⟨u, hu, he⟩ := register_fst_has_email db salt now email password
    cases hd : get_documents (register db salt now email password).1 email 1 with
    | nil =>
      exact absurd he (((get_documents_eq_nil_iff _ email).mp hd) u hu)
    | cons v rest =>
      rw [register_of_found _ salt2 now2 _ password2 v rest hd]

theorem register_spec_witness :
    register [] 0 0 "a@x.com" "pw" =
      ([⟨"a@x.com", some (get_password_hash 0 "pw"), ("a@x.com".splitOn "@").headD ""⟩],
       .ok (create_access_token 0 (some "a@x.com") none)) :=
  ((register_spec [] 0 0 "a@x.com" "pw").2.1 (by simp)).1

/-- Claim C2: verifying a token immediately after it was issued for an
email succeeds and yields that email as the subject: decoding
create_access_token with the same secret key before the 24-hour expiry
elapses recovers the subject claim. -/
theorem token_roundtrip (email : String) (now t : Int)
    (h : t < now + ACCESS_TOKEN_EXPIRE_MINUTES * 60) :
    ∃ c, jwt_decode SECRET_KEY (create_access_token now (some email) none) t = .ok c ∧
      c.sub = some email :=
  ⟨_, jwt_decode_create now t (some email) none h, rfl⟩

theorem token_roundtrip_witness :
    ∃ c, jwt_decode SECRET_KEY (create_access_token 0 (some "a@x.com") none) 0 = .ok c ∧
      c.sub = some "a@x.com" :=
  token_roundtrip "a@x.com" 0 0 (by decide)

/-- Claim C3: password verification is total and never raises: it is a
Bool-valued function on all plaintext/hash string pairs, it returns true
exactly on well-formed hashes of the given password (so any mismatch or
malformed hash yields false, not an exception), and in particular the
empty string that login substitutes for a missing password_hash field
verifies to false. -/
theorem verify_password_total (p h : String) :
    (verify_password p h = true ↔ ∃ salt, h = get_password_hash salt p) ∧
    verify_password p "" = false := by
  refine ⟨⟨verify_password_true_inv p h, ?_⟩, rfl⟩
  rintro ⟨salt, rfl⟩
  exact verify_password_hash_self salt p

theorem verify_password_total_witness :
    verify_password "pw" (get_password_hash 3 "pw") = true ∧
    verify_password "pw" "" = false :=
  ⟨(verify_password_total "pw" (get_password_hash 3 "pw")).1.mpr ⟨3, rfl⟩,
   (verify_password_total "pw" "").2⟩

/-- Claim C4: Login(email, password) fails with the identical error —
status 400 and detail "Invalid credentials" — both when no user with the
email exists and when the user exists but password verification against
the stored hash fails, so the response does not reveal which case
occurred. -/
theorem login_error_indistinguishable (db : List UserDoc) (now : Int)
    (email password : String) :
    ((∀ u ∈ db, u.email ≠ email) →
      login db now email password =
        .error { status_code := 400, detail := "Invalid credentials" }) ∧
    (∀ u rest, get_documents db email 1 = u :: rest →
      verify_password password (u.password_hash.getD "") = false →
      login db now email password =
        .error { status_code := 400, detail := "Invalid credentials" }) := by
  constructor
  · intro hall
    have hnil : get_documents db email 1 = [] := (get_documents_eq_nil_iff db email).mpr hall
    simp [login, hnil]
  · intro u rest hd hv
    simp [login, hd, hv]

theorem login_error_indistinguishable_witness :
    login [] 0 "a@x.com" "pw" = .error ⟨400, "Invalid credentials"⟩ ∧
    login [⟨"a@x.com", some (get_password_hash 0 "other"), "a"⟩] 0 "a@x.com" "pw" =
      .error ⟨400, "Invalid credentials"⟩ :=
  ⟨(login_error_indistinguishable [] 0 "a@x.com" "pw").1 (by simp),
   (login_error_indistinguishable [⟨"a@x.com", some (get_password_hash 0 "other"), "a"⟩]
      0 "a@x.com" "pw").2 ⟨"a@x.com", some (get_password_hash 0 "other"), "a"⟩ [] (by rfl)
      (verify_password_hash_other 0 "pw" "other" (by decide))⟩

/-- Claim C5: hashing soundness and completeness: verifying a password
against its own hash succeeds, verifying it against the hash of a
different password fails, and hashes of the same password under the two
distinct per-call salts are different strings. -/
theorem hash_verify_spec (p p2 : String) (s s1 s2 : Nat) :
    verify_password p (get_password_hash s p) = true ∧
    (p ≠ p2 → verify_password p (get_password_hash s p2) = false) ∧
    (s1 ≠ s2 → get_password_hash s1 p ≠ get_password_hash s2 p) :=
  ⟨verify_password_hash_self s p,
   fun hne => verify_password_hash_other s p p2 hne,
   fun hne => get_password_hash_salt_ne s1 s2 p hne⟩

theorem hash_verify_spec_witness :
    verify_password "a" (get_password_hash 0 "a") = true ∧
    verify_password "a" (get_password_hash 0 "b") = false ∧
    get_password_hash 0 "a" ≠ get_password_hash 1 "a" :=
  ⟨(hash_verify_spec "a" "b" 0 0 1).1,
   (hash_verify_spec "a" "b" 0 0 1).2.1 (by decide),
   (hash_verify_spec "a" "b" 0 0 1).2.2 (by decide)⟩

/-- Claim C6: when the bearer token verifies but its subject claim is
absent, or the subject email matches no stored user, get_current_user
fails as unauthenticated — the 401 credentials exception — and never as
a server error. -/
theorem current_user_unauth (db : List UserDoc) (now : Int) (t : Jwt) (c : Claims)
    (hdec : jwt_decode SECRET_KEY t now = .ok c) :
    (c.sub = none →
      get_current_user db now t =
        .error { status_code := 401, detail := "Could not validate credentials" }) ∧
    (∀ email, c.sub = some email → (∀ u ∈ db, u.email ≠ email) →
      get_current_user db now t =
        .error { status_code := 401, detail := "Could not validate credentials" }) := by
  constructor
  · intro hsub
    simp [get_current_user, hdec, hsub]
  · intro email hsub hall
    have hnil : get_documents db email 1 = [] := (get_documents_eq_nil_iff db email).mpr hall
    simp [get_current_user, hdec, hsub, hnil]

theorem current_user_unauth_witness :
    get_current_user [] 0 (create_access_token 0 none none) =
      .error ⟨401, "Could not validate credentials"⟩ ∧
    get_current_user [] 0 (create_access_token 0 (some "a@x.com") none) =
      .error ⟨401, "Could not validate credentials"⟩ :=
  ⟨(current_user_unauth [] 0 (create_access_token 0 none none)
      ⟨none, 86400⟩ (by rfl)).1 rfl,
   (current_user_unauth [] 0 (create_access_token 0 (some "a@x.com") none)
      ⟨some "a@x.com", 86400⟩ (by rfl)).2 "a@x.com" rfl (by simp)⟩

/-- Claim C7: the /test handler never throws: for every store state — no
handle, a working handle, a handle whose name attribute access raises, or
a handle whose collection listing raises — it returns a status record
whose backend field reports liveness, with each store-access failure
caught and reflected as a status string in the database field rather
than propagated. -/
theorem test_database_never_throws (dbh : Option DbHandle) (urlSet nameSet : Bool) :
    (test_database dbh urlSet nameSet).backend = "✅ Running" ∧
    (dbh = none →
      (test_database dbh urlSet nameSet).database = "⚠️  Available but not initialized") ∧
    (∀ d e, dbh = some d → d.nameAttr = .error e →
      (test_database dbh urlSet nameSet).database = "❌ Error: " ++ pySlice e 50) ∧
    (∀ d ns e, dbh = some d → d.nameAttr = .ok ns → d.list_collection_names = .error e →
      (test_database dbh urlSet nameSet).database =
        "⚠️  Connected but Error: " ++ pySlice e 50) := by
  refine ⟨?_, ?_, ?_, ?_⟩
  · cases dbh with
    | none => rfl
    | some d =>
      obtain ⟨na, lc⟩ := d
      cases na with
      | error e => rfl
      | ok ns => cases lc <;> rfl
  · rintro rfl
    rfl
  · rintro ⟨na, lc⟩ e rfl hna
    cases hna
    rfl
  · rintro ⟨na, lc⟩ ns e rfl hna hlc
    cases hna
    cases hlc
    rfl

theorem test_database_never_throws_witness :
    (test_database (some ⟨.ok none, .error "boom"⟩) true true).database =
      "⚠️  Connected but Error: " ++ pySlice "boom" 50 :=
  (test_database_never_throws (some ⟨.ok none, .error "boom"⟩) true true).2.2.2
    ⟨.ok none, .error "boom"⟩ none "boom" rfl rfl rfl

/-- Claim C8: /pricing returns the same fixed ordered sequence of exactly
3 tiers — Starter, Pro, Studio, in that order — and /testimonials the
same fixed ordered sequence of 3 testimonials, on every call; both
handlers are embedded as constants because they read no state, so any
two calls are definitionally equal. -/
theorem fixed_content_spec :
    get_pricing.length = 3 ∧
    get_pricing.map PricingTier.name = ["Starter", "Pro", "Studio"] ∧
    get_testimonials.length = 3 ∧
    get_testimonials.map Testimonial.name = ["Ava Stone", "Liam Chen", "Maya Patel"] :=
  ⟨rfl, rfl, rfl, rfl⟩

/-- Claim C9: the /me response is the exact projection of the
authenticated user record onto the email and name fields: those two keys
and no others appear, so the stored password_hash never appears in any
/me response. -/
theorem me_projection (u : UserDoc) :
    (me u).map Prod.fst = ["email", "name"] ∧
    (me u).lookup "email" = some u.email ∧
    (me u).lookup "name" = some u.name ∧
    (me u).lookup "password_hash" = none ∧
    ∀ v, ("password_hash", v) ∉ me u := by
  refine ⟨rfl, rfl, rfl, rfl, ?_⟩
  intro v
  simp [me]

/-- Claim C10: the /test response is bounded: the collections list holds
at most the first 10 collection names and any caught exception text
embedded in a status string is cut to at most its first 50 characters. -/
theorem test_database_bounded (dbh : Option DbHandle) (urlSet nameSet : Bool) :
    (test_database dbh urlSet nameSet).collections.length ≤ 10 ∧
    (∀ d cols, dbh = some d → d.list_collection_names = .ok cols →
      (test_database dbh urlSet nameSet).collections.length ≤ 10) ∧
    (∀ d e, dbh = some d → d.nameAttr = .error e →
      (test_database dbh urlSet nameSet).database = "❌ Error: " ++ pySlice e 50 ∧
      (pySlice e 50).length ≤ 50) ∧
    (∀ d ns e, dbh = some d → d.nameAttr = .ok ns → d.list_collection_names = .error e →
      (test_database dbh urlSet nameSet).database =
        "⚠️  Connected but Error: " ++ pySlice e 50 ∧
      (pySlice e 50).length ≤ 50) := by
  have hslice : ∀ e : String, (pySlice e 50).length ≤ 50 := fun e =>
    List.length_take_le 50 e.data
  have hlen : (test_database dbh urlSet nameSet).collections.length ≤ 10 := by
    cases dbh with
    | none => simp [test_database]
    | some d =>
      obtain ⟨na, lc⟩ := d
      cases na with
      | error e => simp [test_database]
      | ok ns =>
        cases lc with
        | error e => simp [test_database]
        | ok cols => simp [test_database]
  refine ⟨hlen, fun d cols _ _ => hlen, ?_, ?_⟩
  · rintro ⟨na, lc⟩ e rfl hna
    cases hna
    exact ⟨rfl, hslice e⟩
  · rintro ⟨na, lc⟩ ns e rfl hna hlc
    cases hna
    cases hlc
    exact ⟨rfl, hslice e⟩

theorem test_database_bounded_witness :
    (test_database (some ⟨.error "kaput", .ok []⟩) false false).database =
      "❌ Error: " ++ pySlice "kaput" 50 ∧
    (pySlice "kaput" 50).length ≤ 50 :=
  (test_database_bounded (some ⟨.error "kaput", .ok []⟩) false false).2.2.1
    ⟨.error "kaput", .ok []⟩ "kaput" rfl rfl

end AgencyAPI
